import Mathlib

/-!
A shallow embedding of the two Python source files of the
`discord-results-bot` repository, `discord_bot.py` (namespace `DBot`) and
`main.py` (namespace `MainPy`), together with theorems settling the frozen
claims about the repository's specification.

Modelling conventions:
* HTTP traffic is a parameter: a per-attempt response function for the
  per-identifier fetch, and a list of timestamped responses for the watcher
  loop.  A transport-level exception is a constructor of the response type.
* Timestamps are integers (Python `time.time()` differences compared with
  `>=` are modelled by integer subtraction and `≤`).
* Python `str.strip` / `in` / `isdigit` are modelled on the character list
  of the string (`py_strip`, `str_has`, `Char.isDigit`); `isdigit` is
  modelled for ASCII digits, which covers every string the sources compare.
* Outbound Discord sends are recorded as emitted messages; whether a
  fallible send succeeds is a Boolean parameter.
* The fetch engine additionally records ghost instrumentation (the
  classification of the outcome, the number of attempts entered, and the
  list of back-off delays slept); the value the Python function actually
  returns is the `result` field.
-/

/-- Python `str.strip()`: drop leading and trailing whitespace. -/
def py_strip (s : String) : String :=
  ⟨((s.data.dropWhile Char.isWhitespace).reverse.dropWhile Char.isWhitespace).reverse⟩

/-- Whether the character list `needle` occurs contiguously in `hay`. -/
def chars_has (needle : List Char) : List Char → Bool
  | [] => needle.isEmpty
  | c :: cs => needle.isPrefixOf (c :: cs) || chars_has needle cs

/-- Python `needle in hay` on strings. -/
def str_has (hay needle : String) : Bool :=
  chars_has needle.data hay.data

/-- Python `str(x)` for an `Optional[str]` value (used when an f-string
interpolates a variable that may hold `None`). -/
def pyStr : Option String → String
  | some s => s
  | none => "None"

/-- One slice step of `reg_nos[i:i+B]` iteration: structural version with
fuel (the fuel is instantiated with the list length, which always
suffices). -/
def slice_go (n : Nat) : Nat → List String → List (List String)
  | 0, _ => []
  | _, [] => []
  | fuel + 1, x :: xs => (x :: xs).take n :: slice_go n fuel (xs.drop (n - 1))

/-- `for i in range(0, len(l), n): batch = l[i:i+n]` — the consecutive
chunks of size `n` (the last one may be smaller). -/
def slice_batches (n : Nat) (l : List String) : List (List String) :=
  slice_go n l.length l

/-- An HTTP response as observed by a caller: a status code and a body, or
a transport-level exception (timeout, connection failure, ...) carrying its
description. -/
inductive HttpResp where
  | ok (status : Nat) (html : String)
  | exc (ename : String)
deriving DecidableEq

namespace DBot

/-- `clean_registration_number` of discord_bot.py: strip, then keep the
value only if it is all digits and of length 11, else return `""`. -/
def clean_registration_number (reg_no : String) : String :=
  let r := py_strip reg_no
  if r.data.all Char.isDigit ∧ r.data.length = 11 then r else ""

/-- `is_result_html` of discord_bot.py. -/
def is_result_html (html : String) : Bool :=
  str_has html "Student Name:" || str_has html "Registration No:"

/-- `is_website_down_html` of discord_bot.py. -/
def is_website_down_html (html : String) : Bool :=
  str_has html "HTTP Error 503" || str_has html "Service Unavailable"

/-- The response observed by one attempt of `fetch_result_html`
(discord_bot.py never reads the status code there, only the body text, so
the response is a body or an exception). -/
inductive FetchResp where
  | ok (html : String)
  | exc
deriving DecidableEq

/-- Ghost classification of the outcome of one identifier's fetch. -/
inductive FetchOutcome where
  | Found (doc : String)
  | NotFound
  | Invalid
  | Unavailable
deriving DecidableEq

/-- Instrumented result of `fetch_result_html`: the returned value plus
ghost fields (outcome classification, number of loop iterations entered,
and the `2 ** attempt` delays slept, in order). -/
structure FetchTrace where
  result : Option String
  outcome : FetchOutcome
  attempts : Nat
  delays : List Nat
deriving DecidableEq

/-- A response on which an attempt of `fetch_result_html` retries:
a transport exception, or a body with an overload marker. -/
def is_transient : FetchResp → Bool
  | .exc => true
  | .ok html => is_website_down_html html

def RETRY_MAX_ATTEMPTS : Nat := 3

/-- The retry loop of `fetch_result_html` (discord_bot.py lines 135-149),
starting at attempt number `a` with `rem` attempts remaining.  Per
attempt: a transport exception sleeps `2 ** attempt` and retries; a body
with an overload marker sleeps `2 ** attempt` and retries; otherwise an
"Invalid Registration Number" marker returns `None`; otherwise a body
passing `is_result_html` is returned, and any other body returns `None`.
Falling off the loop returns `None`. -/
def fetch_from (resp : Nat → FetchResp) : Nat → Nat → FetchTrace
  | _, 0 => ⟨none, .Unavailable, 0, []⟩
  | a, rem + 1 =>
    match resp a with
    | .exc =>
      let t := fetch_from resp (a + 1) rem
      ⟨t.result, t.outcome, t.attempts + 1, 2 ^ a :: t.delays⟩
    | .ok html =>
      if is_website_down_html html then
        let t := fetch_from resp (a + 1) rem
        ⟨t.result, t.outcome, t.attempts + 1, 2 ^ a :: t.delays⟩
      else if str_has html "Invalid Registration Number" then
        ⟨none, .Invalid, 1, []⟩
      else if is_result_html html then
        ⟨some html, .Found html, 1, []⟩
      else
        ⟨none, .NotFound, 1, []⟩

/-- `fetch_result_html` with instrumentation, from attempt 0 with
`RETRY_MAX_ATTEMPTS` attempts available. -/
def fetch_result_trace (resp : Nat → FetchResp) : FetchTrace :=
  fetch_from resp 0 RETRY_MAX_ATTEMPTS

/-- The value `fetch_result_html` actually returns. -/
def fetch_result_html (resp : Nat → FetchResp) : Option String :=
  (fetch_result_trace resp).result

/-- The projection relating the ghost outcome to the returned value. -/
def outcome_to_result : FetchOutcome → Option String
  | .Found d => some d
  | _ => none

/-- A response behaviour that raises a transport exception on every
attempt. -/
def allExc : Nat → FetchResp := fun _ => .exc

/-- A response behaviour answering every attempt with a body that carries
none of the recognised markers. -/
def respNotFoundBody : Nat → FetchResp := fun _ => .ok "<html><body>no data</body></html>"

/-- A response behaviour answering every attempt with the authoritative
invalid-identifier marker. -/
def respInvalidBody : Nat → FetchResp := fun _ => .ok "Invalid Registration Number"

/-- A Discord message sent through the webhook: a plain text message, or a
rich embed (title and description modelled). -/
inductive Msg where
  | text (content : String)
  | embed (title : String) (description : String)
deriving DecidableEq

/-- `f"❌ **Invalid format:** {reg_no}"`. -/
def invalid_format_msg (reg_no : String) : String :=
  "❌ **Invalid format:** " ++ reg_no

/-- `f"❌ **No result found for:** {reg_no}"`. -/
def no_result_msg (reg_no : String) : String :=
  "❌ **No result found for:** " ++ reg_no

/-- `f"⚠️ **File send failed for:** {reg_no}"`. -/
def file_failed_msg (reg_no : String) : String :=
  "⚠️ **File send failed for:** " ++ reg_no

/-- The "Result Found" rich embed sent for an identifier whose fetch
returned a document. -/
def found_embed (reg_no : String) : Msg :=
  .embed "🎯 Result Found!"
    ("Successfully found result for registration number: **" ++ reg_no ++ "**")

/-- Result of `process_single` inside `process_batch`: the messages it
sent, the identifiers it fetched over the network (ghost instrumentation:
each entry is one `fetch_result_html` call, made while holding a semaphore
slot), and the `(reg_no, html_content)` pair it returns to
`asyncio.gather`. -/
structure SingleOut where
  msgs : List Msg
  calls : List String
  pair : Option String × Option String
deriving DecidableEq

/-- `process_single` of discord_bot.py (lines 154-161): a shape-invalid
identifier sends the invalid-format message and returns `(None, None)`
without touching the network; a valid one fetches (the fetch behaviour is
the parameter `fetch`) and returns `(reg_no, html_content)`. -/
def process_single (fetch : String → Option String) (reg_no : String) : SingleOut :=
  let clean_reg := clean_registration_number reg_no
  if clean_reg = "" then
    ⟨[.text (invalid_format_msg reg_no)], [], (none, none)⟩
  else
    ⟨[], [clean_reg], (some reg_no, fetch clean_reg)⟩

/-- The per-pair arm of the result loop of `process_batch` (lines
167-188): messages emitted and the contribution to `successful`.  `fsend`
is the result of `send_discord_file` for the given identifier and
document. -/
def handle_result (fsend : String → String → Bool) :
    Option String × Option String → List Msg × List String
  | (rn, some html) =>
    if fsend (pyStr rn) html then
      ([found_embed (pyStr rn)], [pyStr rn])
    else
      ([found_embed (pyStr rn), .text (file_failed_msg (pyStr rn))], [])
  | (rn, none) => ([.text (no_result_msg (pyStr rn))], [])

/-- Aggregate result of `process_batch`: the `successful` list it returns,
every message sent while processing the batch, and every network fetch
performed (ghost). -/
structure BatchOut where
  successful : List String
  msgs : List Msg
  calls : List String
deriving DecidableEq

/-- `process_batch` of discord_bot.py (lines 151-190): run
`process_single` over the batch (gather preserves task order), then walk
the gathered `(reg_no, html_content)` pairs emitting the per-outcome
messages and accumulating `successful`. -/
def process_batch (fetch : String → Option String) (fsend : String → String → Bool)
    (batch : List String) : BatchOut :=
  let singles := batch.map (process_single fetch)
  let phase1 := (singles.map SingleOut.msgs).flatten
  let folded := (singles.map SingleOut.pair).foldl
    (fun acc p =>
      let r := handle_result fsend p
      (acc.1 ++ r.2, acc.2 ++ r.1)) ([], [])
  ⟨folded.1, phase1 ++ folded.2, (singles.map SingleOut.calls).flatten⟩

/-- The keyword-argument names of the `session.post` call inside
`send_discord_file` (discord_bot.py line 109): the call passes `data=`
twice (`data=data, data=files`), which repeats a keyword and makes the
definition ill-formed Python. -/
def send_discord_file_post_keywords : List String := ["data", "data"]

/-- The return behaviour of `send_discord_file`: because its `session.post`
call repeats the keyword `data`, the function definition is ill-formed
(Python rejects it with a syntax error), so no invocation of it can ever
report success; modelled as constantly `false`. -/
def send_discord_file_returns (_reg_no _html : String) : Bool := false

def BATCH_SIZE : Nat := 20

/-- One step of `dict.fromkeys` insertion: keep the accumulator if the key
is already present, else append it. -/
def dedup_step (acc : List String) (x : String) : List String :=
  if x ∈ acc then acc else acc ++ [x]

/-- `list(dict.fromkeys(xs))`: deduplication keeping the first occurrence
of each element, in first-seen order. -/
def dedup_first_seen (xs : List String) : List String :=
  xs.foldl dedup_step []

/-- The identifier list `process_registration_file` builds from the file's
lines (discord_bot.py line 199):
`list(dict.fromkeys(line.strip() for line in f if line.strip()))`. -/
def read_reg_nos (lines : List String) : List String :=
  dedup_first_seen ((lines.filter (fun l => py_strip l ≠ "")).map py_strip)

def ERROR_NOTIFICATION_INTERVAL : Int := 3600

/-- The throttle state of `monitor_website`: `last_error_notification` and
`is_first_check`.  Both the overload (`Degraded`) branch and the exception
(`Unreachable`) branch of the source read and write this one shared
pair. -/
structure MonState where
  last_error_notification : Int
  is_first_check : Bool
deriving DecidableEq

/-- The initial watcher state: `last_error_notification = 0`,
`is_first_check = True`. -/
def start_state : MonState := ⟨0, true⟩

/-- The throttling condition both error branches of `monitor_website` test:
`current_time - last_error_notification >= ERROR_NOTIFICATION_INTERVAL or
is_first_check`. -/
def should_emit (st : MonState) (t : Int) : Bool :=
  decide (ERROR_NOTIFICATION_INTERVAL ≤ t - st.last_error_notification) || st.is_first_check

def website_down_msg : String :=
  "⚠️ **Website overloaded:** Service Unavailable (HTTP 503)"

/-- `f"❌ **Website DOWN** - {type(e).__name__}: {str(e)}"`; `ename` holds
the formatted exception text. -/
def website_error_msg (ename : String) : String :=
  "❌ **Website DOWN** - " ++ ename

/-- The one-time embed sent when the results page goes live. -/
def results_live_embed : Msg :=
  .embed "🌐 RESULTS LIVE!"
    "**The exam results are now published!** Starting automatic processing..."

/-- Aggregate observation of a watcher run: messages emitted by the loop,
number of probes issued, number of dispatcher invocations, and the final
throttle state. -/
structure MonitorOut where
  msgs : List Msg
  probes : Nat
  dispatches : Nat
  final : MonState
deriving DecidableEq

/-- The polling loop of `monitor_website` (discord_bot.py lines 270-314)
over a list of timestamped probe responses (each list entry is one
iteration's `time.time()` value and the response of its `session.get`).
On a 200-status body passing `is_result_html`: send the live embed, invoke
the dispatcher (whose messages are the parameter `dmsgs`), and `break` —
the remaining responses are never consumed.  On an overload body or a
transport exception: send the throttled message under the shared throttle
state.  Anything else only logs.  The trace ending models the loop being
stopped by the shutdown event. -/
def monitor_from (dmsgs : List Msg) : MonState → List (Int × HttpResp) → MonitorOut
  | st, [] => ⟨[], 0, 0, st⟩
  | st, (t, r) :: rest =>
    match r with
    | .ok status html =>
      if status = 200 ∧ is_result_html html = true then
        ⟨results_live_embed :: dmsgs, 1, 1, st⟩
      else if is_website_down_html html = true then
        if ERROR_NOTIFICATION_INTERVAL ≤ t - st.last_error_notification ∨ st.is_first_check = true then
          let out := monitor_from dmsgs ⟨t, false⟩ rest
          ⟨.text website_down_msg :: out.msgs, out.probes + 1, out.dispatches, out.final⟩
        else
          let out := monitor_from dmsgs st rest
          ⟨out.msgs, out.probes + 1, out.dispatches, out.final⟩
      else
        let out := monitor_from dmsgs st rest
        ⟨out.msgs, out.probes + 1, out.dispatches, out.final⟩
    | .exc ename =>
      if ERROR_NOTIFICATION_INTERVAL ≤ t - st.last_error_notification ∨ st.is_first_check = true then
        let out := monitor_from dmsgs ⟨t, false⟩ rest
        ⟨.text (website_error_msg ename) :: out.msgs, out.probes + 1, out.dispatches, out.final⟩
      else
        let out := monitor_from dmsgs st rest
        ⟨out.msgs, out.probes + 1, out.dispatches, out.final⟩

/-- Whether a probe response takes the live branch of the loop:
`response.status == 200 and is_result_html(html)`. -/
def probe_live : HttpResp → Bool
  | .ok status html => status == 200 && is_result_html html
  | .exc _ => false

/-- The four poll states of the specification, as decided by the branch
structure of `monitor_website`. -/
inductive PollState where
  | Live
  | Degraded
  | NotYet
  | Unreachable
deriving DecidableEq

/-- The classification the watcher's branch structure assigns to one probe
response. -/
def classify_probe : HttpResp → PollState
  | .ok status html =>
    if status = 200 ∧ is_result_html html = true then .Live
    else if is_website_down_html html = true then .Degraded
    else .NotYet
  | .exc _ => .Unreachable

/-- A fetch behaviour that never finds anything (used to instantiate
closed statements). -/
def fetch_none : String → Option String := fun _ => none

/-- A file-send behaviour that always fails (used to instantiate closed
statements). -/
def fsend_never : String → String → Bool := fun _ _ => false

end DBot

namespace MainPy

/-- `clean_registration_number` of main.py (lines 53-55). -/
def clean_registration_number (reg_no : String) : String :=
  let cleaned := py_strip reg_no
  if cleaned.data.length = 11 ∧ cleaned.data.all Char.isDigit then cleaned else ""

/-- `fetch_result_html` of main.py (lines 57-66): a single attempt with no
retry loop.  A 200-status body is returned unless it carries the
"Invalid Registration Number" marker; any other status, and any transport
exception, yields `None`. -/
def fetch_result_html (resp : HttpResp) : Option String :=
  match resp with
  | .ok status html =>
    if status = 200 then
      if str_has html "Invalid Registration Number" then none else some html
    else none
  | .exc _ => none

/-- `process_batch` of main.py (lines 93-108): fetch every identifier of
the batch (the response each one observes is the parameter `fetches`),
then for each found document attempt the attachment send (`send_ok` gives
its result); only found documents produce a message, and only successful
sends enter `successful`.  Returns `(successful, messages)`. -/
def process_batch (fetches : String → HttpResp) (send_ok : String → Bool)
    (batch : List String) : List String × List String :=
  let results := batch.map (fun reg_no => fetch_result_html (fetches reg_no))
  (batch.zip results).foldl
    (fun acc pr =>
      match pr with
      | (reg_no, some _) =>
        if send_ok reg_no then
          (acc.1 ++ [reg_no], acc.2 ++ ["Result for " ++ reg_no])
        else
          (acc.1, acc.2 ++ ["Result for " ++ reg_no])
      | (_, none) => acc) ([], [])

/-- The identifier list `process_registration_file` of main.py builds from
the file's lines (lines 116-118): clean every non-blank line, then keep
the non-empty results.  No deduplication is performed. -/
def read_reg_nos (lines : List String) : List String :=
  ((lines.filter (fun l => py_strip l ≠ "")).map clean_registration_number).filter
    (fun r => r ≠ "")

/-- `process_registration_file` of main.py (lines 110-138), from the
file's lines onward: build the identifier list, report when it is empty,
otherwise announce the run and process the batches of 20 in order.
Returns `(all_successful, messages)`. -/
def process_registration_file (fetches : String → HttpResp) (send_ok : String → Bool)
    (lines : List String) : List String × List String :=
  let reg_nos := read_reg_nos lines
  if reg_nos = [] then
    ([], ["❌ No valid registration numbers found"])
  else
    let folded := (slice_batches 20 reg_nos).foldl
      (fun acc b =>
        let r := process_batch fetches send_ok b
        (acc.1 ++ r.1, acc.2 ++ r.2)) ([], [])
    (folded.1, ("🚀 Processing " ++ toString reg_nos.length ++ " numbers...") :: folded.2)

def NOTIFICATION_INTERVAL : Int := 7200

def HEALTH_CHECK_INTERVAL : Int := 3600

def health_msg : String := "❤️ Health Check"

def live_msg : String := "🌐 Website is LIVE! Processing results..."

/-- `f"✅ Processing complete! {len(successful)} results found."`. -/
def complete_msg (n : Nat) : String :=
  "✅ Processing complete! " ++ toString n ++ " results found."

/-- `f"❌ Website error: {type(e).__name__}"`. -/
def website_error_msg (ename : String) : String :=
  "❌ Website error: " ++ ename

/-- The watcher state of main.py's `ResultsMonitor.monitor_website`:
`last_notification_time`, `is_first_check`, and the local
`last_health_check`. -/
structure MonState where
  last_notification_time : Int
  is_first_check : Bool
  last_health_check : Int
deriving DecidableEq

/-- The initial state of a run started at time 0. -/
def init_state : MonState := ⟨0, true, 0⟩

/-- Aggregate observation of a main.py watcher run. -/
structure MonitorOut where
  msgs : List String
  probes : Nat
  dispatches : Nat
  final : MonState
deriving DecidableEq

/-- The polling loop of main.py's `monitor_website` (lines 140-176) over a
list of timestamped probe responses.  Each iteration first performs the
health check, then probes.  A 200-status response that passes the
notification throttle sends the live message, runs
`process_registration_file` (its messages are `dmsgs` and the length of
its returned list is `dsucc`), sends the completion message, records the
time, and — with no `break` anywhere — loops on.  A transport exception is
throttled by `last_notification_time` alone.  The response body is never
inspected. -/
def monitor_from (dmsgs : List String) (dsucc : Nat) :
    MonState → List (Int × HttpResp) → MonitorOut
  | st, [] => ⟨[], 0, 0, st⟩
  | st, (t, r) :: rest =>
    let hc := HEALTH_CHECK_INTERVAL ≤ t - st.last_health_check
    let hmsgs : List String := if hc then [health_msg] else []
    let st1 : MonState :=
      if hc then ⟨st.last_notification_time, st.is_first_check, t⟩ else st
    match r with
    | .ok status _ =>
      if status = 200 ∧
          (st1.is_first_check = true ∨ NOTIFICATION_INTERVAL ≤ t - st1.last_notification_time) then
        let out := monitor_from dmsgs dsucc ⟨t, false, st1.last_health_check⟩ rest
        ⟨hmsgs ++ live_msg :: (dmsgs ++ [complete_msg dsucc]) ++ out.msgs,
          out.probes + 1, out.dispatches + 1, out.final⟩
      else
        let out := monitor_from dmsgs dsucc st1 rest
        ⟨hmsgs ++ out.msgs, out.probes + 1, out.dispatches, out.final⟩
    | .exc ename =>
      if NOTIFICATION_INTERVAL ≤ t - st1.last_notification_time then
        let out := monitor_from dmsgs dsucc ⟨t, st1.is_first_check, st1.last_health_check⟩ rest
        ⟨hmsgs ++ website_error_msg ename :: out.msgs, out.probes + 1, out.dispatches, out.final⟩
      else
        let out := monitor_from dmsgs dsucc st1 rest
        ⟨hmsgs ++ out.msgs, out.probes + 1, out.dispatches, out.final⟩

/-- A fetch environment answering every lookup with a transport
exception (used to instantiate closed statements). -/
def fetch_down : String → HttpResp := fun _ => .exc "TimeoutError"

/-- A send behaviour that always fails (used to instantiate closed
statements). -/
def send_never : String → Bool := fun _ => false

end MainPy

namespace DBot

/-- On a response behaviour that is transient on every attempt, the retry
loop enters every remaining attempt and sleeps `2 ^ attempt` after each of
them — including the last — before returning `None`. -/
theorem fetch_from_transient (resp : Nat → FetchResp)
    (h : ∀ i, is_transient (resp i) = true) :
    ∀ rem a : Nat, fetch_from resp a rem =
      ⟨none, .Unavailable, rem, (List.range' a rem).map (fun i => 2 ^ i)⟩ := by
  intro rem
  induction rem with
  | zero => intro a; rfl
  | succ n ih =>
    intro a
    have hta := h a
    cases hra : resp a with
    | exc =>
      simp [fetch_from, hra, ih (a + 1), List.range'_succ]
    | ok html =>
      have hdown : is_website_down_html html = true := by
        simpa [is_transient, hra] using hta
      simp [fetch_from, hra, hdown, ih (a + 1), List.range'_succ]

/-- The value the retry loop returns is exactly the `Found` document when
the ghost outcome is `Found`, and `None` for every other ghost outcome. -/
theorem fetch_from_result_eq (resp : Nat → FetchResp) :
    ∀ rem a : Nat, (fetch_from resp a rem).result =
      outcome_to_result (fetch_from resp a rem).outcome := by
  intro rem
  induction rem with
  | zero => intro a; rfl
  | succ n ih =>
    intro a
    cases hra : resp a with
    | exc => simp [fetch_from, hra, ih (a + 1)]
    | ok html =>
      by_cases hd : is_website_down_html html
      · simp [fetch_from, hra, hd, ih (a + 1)]
      · by_cases hi : str_has html "Invalid Registration Number"
        · simp [fetch_from, hra, hd, hi, outcome_to_result]
        · by_cases hr : is_result_html html
          · simp [fetch_from, hra, hd, hi, hr, outcome_to_result]
          · simp [fetch_from, hra, hd, hi, hr, outcome_to_result]

/-- Claim C2 (counterexample).  The claim states that an all-transient
fetch performs `R` attempts with the `R - 1` delays
`2^0, ..., 2^(R-2)` between them and none after the last attempt.  With
`R = RETRY_MAX_ATTEMPTS = 3`, the code's retry loop on an all-transient
behaviour actually sleeps `[1, 2, 4]` — three delays, one of them after
the final attempt (the delay count equals the attempt count, not
`R - 1`), not the claimed `[1, 2]`. -/
theorem c2_counterexample :
    fetch_result_trace allExc = ⟨none, .Unavailable, 3, [1, 2, 4]⟩ ∧
    (fetch_result_trace allExc).delays ≠ [1, 2] ∧
    (fetch_result_trace allExc).delays.length = (fetch_result_trace allExc).attempts := by
  refine ⟨by decide, by decide, by decide⟩

/-- Claim C2 (amended): a fetch that is transient on every attempt
performs exactly `R` attempts and sleeps `2 ^ a` after every transient
attempt `a = 0, ..., R-1` — `R` delays in total, including one after the
final attempt — and then returns `None` (the `Unavailable` outcome); with
the source's `RETRY_MAX_ATTEMPTS = 3` that is 3 attempts and the delays
`[1, 2, 4]`. -/
theorem c2_retry_behavior (resp : Nat → FetchResp)
    (h : ∀ i, is_transient (resp i) = true) :
    (∀ R : Nat, fetch_from resp 0 R =
      ⟨none, .Unavailable, R, (List.range R).map (fun i => 2 ^ i)⟩) ∧
    fetch_result_trace resp = ⟨none, .Unavailable, 3, [1, 2, 4]⟩ := by
  have key := fetch_from_transient resp h
  constructor
  · intro R
    rw [key R 0, List.range_eq_range']
  · rw [show fetch_result_trace resp = fetch_from resp 0 3 from rfl, key 3 0]
    decide

/-- Claim C2 (witness): the amended retry statement instantiated on the
behaviour that raises a transport exception on every attempt. -/
theorem c2_retry_behavior_witness :
    fetch_from allExc 0 2 = ⟨none, .Unavailable, 2, [1, 2]⟩ ∧
    fetch_result_trace allExc = ⟨none, .Unavailable, 3, [1, 2, 4]⟩ := by
  have h := c2_retry_behavior allExc (fun _ => rfl)
  exact ⟨by rw [h.1 2]; decide, h.2⟩

/-- Claim C8 (amended): within the discord_bot.py fetch, the attempt
classification applies the canonical order — overload marker first
(transient: the all-transient theorem below shows a body carrying both the
down marker and the invalid marker is retried to exhaustion rather than
classified `Invalid`), then the authoritative "Invalid Registration
Number" marker (immediate `Invalid`, one attempt, no delays), then the
result-shape check (`Found` on success, `NotFound` with no retry
otherwise).  main.py's single-attempt fetch checks only the invalid
marker, so the canonical order is specific to discord_bot.py (see the
counterexample). -/
theorem c8_check_order (resp : Nat → FetchResp) (html : String)
    (h0 : resp 0 = .ok html) :
    (is_website_down_html html = true → str_has html "Invalid Registration Number" = true →
      fetch_result_trace (fun _ => FetchResp.ok html) =
        ⟨none, .Unavailable, 3, [1, 2, 4]⟩) ∧
    (is_website_down_html html = false → str_has html "Invalid Registration Number" = true →
      fetch_result_trace resp = ⟨none, .Invalid, 1, []⟩) ∧
    (is_website_down_html html = false → str_has html "Invalid Registration Number" = false →
      is_result_html html = true →
      fetch_result_trace resp = ⟨some html, .Found html, 1, []⟩) ∧
    (is_website_down_html html = false → str_has html "Invalid Registration Number" = false →
      is_result_html html = false →
      fetch_result_trace resp = ⟨none, .NotFound, 1, []⟩) := by
  refine ⟨fun hd _ => ?_, fun hd hi => ?_, fun hd hi hr => ?_, fun hd hi hr => ?_⟩
  · rw [show fetch_result_trace (fun _ => FetchResp.ok html) =
        fetch_from (fun _ => FetchResp.ok html) 0 3 from rfl,
      fetch_from_transient _ (fun _ => by simpa [is_transient] using hd) 3 0]
    decide
  · rw [show fetch_result_trace resp = fetch_from resp 0 3 from rfl]
    simp [fetch_from, h0, hd, hi]
  · rw [show fetch_result_trace resp = fetch_from resp 0 3 from rfl]
    simp [fetch_from, h0, hd, hi, hr]
  · rw [show fetch_result_trace resp = fetch_from resp 0 3 from rfl]
    simp [fetch_from, h0, hd, hi, hr]

/-- Claim C8 (witness): the four check-order cases at concrete bodies —
a body with both the overload and the invalid marker is retried to
exhaustion; a pure invalid-marker body on the first attempt yields
`Invalid` after one attempt with zero retries and zero delays; a
result-shaped body yields `Found`; a plain body yields `NotFound`. -/
theorem c8_check_order_witness :
    fetch_result_trace (fun _ => FetchResp.ok "HTTP Error 503 Invalid Registration Number") =
      ⟨none, .Unavailable, 3, [1, 2, 4]⟩ ∧
    fetch_result_trace (fun _ => FetchResp.ok "Invalid Registration Number") =
      ⟨none, .Invalid, 1, []⟩ ∧
    fetch_result_trace (fun _ => FetchResp.ok "Student Name: JOHN") =
      ⟨some "Student Name: JOHN", .Found "Student Name: JOHN", 1, []⟩ ∧
    fetch_result_trace (fun _ => FetchResp.ok "no markers at all") =
      ⟨none, .NotFound, 1, []⟩ := by
  refine ⟨(c8_check_order (fun _ => FetchResp.ok "HTTP Error 503 Invalid Registration Number")
      "HTTP Error 503 Invalid Registration Number" rfl).1 (by decide) (by decide),
    (c8_check_order (fun _ => FetchResp.ok "Invalid Registration Number")
      "Invalid Registration Number" rfl).2.1 (by decide) (by decide),
    (c8_check_order (fun _ => FetchResp.ok "Student Name: JOHN")
      "Student Name: JOHN" rfl).2.2.1 (by decide) (by decide) (by decide),
    (c8_check_order (fun _ => FetchResp.ok "no markers at all")
      "no markers at all" rfl).2.2.2 (by decide) (by decide) (by decide)⟩

/-- Claim C9 (counterexample).  The claim states the fetch engine's
internal classification keeps `NotFound`, `Unavailable` and `Invalid`
distinct.  Three response behaviours whose ghost classifications are
exactly those three distinct outcomes all make `fetch_result_html` return
the identical value `None`: the function's result — the only thing the
code hands to its caller — does not keep them distinct. -/
theorem c9_counterexample :
    fetch_result_html respNotFoundBody = none ∧
    fetch_result_html allExc = none ∧
    fetch_result_html respInvalidBody = none ∧
    (fetch_result_trace respNotFoundBody).outcome = .NotFound ∧
    (fetch_result_trace allExc).outcome = .Unavailable ∧
    (fetch_result_trace respInvalidBody).outcome = .Invalid := by
  refine ⟨by decide, by decide, by decide, by decide, by decide, by decide⟩

/-- Claim C9 (amended): the user-visible notification for a `NotFound`
and for an `Unavailable` outcome is identical (`process_batch` sends the
same "No result found" message for every `(reg_no, None)` pair, whatever
the cause), but the fetch engine itself returns `None` for `NotFound`,
`Unavailable` and upstream `Invalid` alike — its returned value is the
`Found`-or-`None` projection of the classification, so the internal
distinction is not preserved in its result and a message split would
require changing the fetch engine. -/
theorem c9_message_merge (resp : Nat → FetchResp) (fsend : String → String → Bool)
    (rn : Option String) :
    fetch_result_html resp = outcome_to_result (fetch_result_trace resp).outcome ∧
    handle_result fsend (rn, none) = ([.text (no_result_msg (pyStr rn))], []) ∧
    outcome_to_result .NotFound = outcome_to_result .Unavailable ∧
    outcome_to_result .Invalid = outcome_to_result .Unavailable := by
  exact ⟨fetch_from_result_eq resp RETRY_MAX_ATTEMPTS 0, rfl, rfl, rfl⟩

/-- The result-loop fold of `process_batch` decomposed per pair. -/
theorem handle_foldl_eq (fsend : String → String → Bool)
    (l : List (Option String × Option String)) :
    ∀ acc : List String × List Msg,
      l.foldl (fun acc p =>
        let r := handle_result fsend p
        (acc.1 ++ r.2, acc.2 ++ r.1)) acc =
      (acc.1 ++ (l.map (fun p => (handle_result fsend p).2)).flatten,
       acc.2 ++ (l.map (fun p => (handle_result fsend p).1)).flatten) := by
  induction l with
  | nil => intro acc; simp
  | cons p ps ih => intro acc; simp [ih]

/-- `process_batch` decomposed per identifier: every identifier of the
batch contributes exactly its `process_single` messages and network calls
during the gather phase, and exactly its `handle_result` messages and
success contribution during the result loop — in batch order, with no
identifier dropped. -/
theorem process_batch_eq (fetch : String → Option String) (fsend : String → String → Bool)
    (batch : List String) :
    process_batch fetch fsend batch =
      ⟨(batch.map (fun r => (handle_result fsend (process_single fetch r).pair).2)).flatten,
       (batch.map (fun r => (process_single fetch r).msgs)).flatten ++
         (batch.map (fun r => (handle_result fsend (process_single fetch r).pair).1)).flatten,
       (batch.map (fun r => (process_single fetch r).calls)).flatten⟩ := by
  simp [process_batch, handle_foldl_eq, List.map_map, Function.comp_def]

/-- With the ill-formed `send_discord_file`, no pair ever contributes to
`successful`. -/
theorem handle_result_never_success (p : Option String × Option String) :
    (handle_result send_discord_file_returns p).2 = [] := by
  obtain ⟨rn, h⟩ := p
  cases h with
  | none => rfl
  | some html => simp [handle_result, send_discord_file_returns]

/-- Claim C10: the `session.post` call of `send_discord_file` passes the
keyword `data` twice (`data=data, data=files`), so the keyword list of the
call has a repeated name and the function definition is ill-formed Python;
consequently no invocation of it can report success, so `process_batch`
run with it never adds any identifier to `successful` — no `Found` outcome
is ever delivered as an attachment or counted in the success tally. -/
theorem c10_broken_file_send :
    send_discord_file_post_keywords.count "data" = 2 ∧
    send_discord_file_post_keywords.length = 2 ∧
    ∀ (fetch : String → Option String) (batch : List String),
      (process_batch fetch send_discord_file_returns batch).successful = [] := by
  refine ⟨by decide, by decide, fun fetch batch => ?_⟩
  rw [process_batch_eq]
  simp [handle_result_never_success]

/-- Claim C1 (bug evaluation): submitting the one-identifier batch
`["abc"]` — a shape-invalid identifier — makes `process_batch` emit two
notifications, not one: the invalid-format message sent by
`process_single`, and then, because `process_single` returned the pair
`(None, None)` which the result loop treats as a no-result pair, the
message "❌ **No result found for:** None".  The claim promises exactly
one outcome notification per identifier. -/
theorem c1_invalid_double_notification (fetch : String → Option String)
    (fsend : String → String → Bool) :
    (process_batch fetch fsend ["abc"]).msgs =
      [.text (invalid_format_msg "abc"), .text (no_result_msg "None")] ∧
    (process_batch fetch fsend ["abc"]).msgs.length = 2 := by
  have hclean : clean_registration_number "abc" = "" := by decide
  have hmsgs : (process_batch fetch fsend ["abc"]).msgs =
      [.text (invalid_format_msg "abc"), .text (no_result_msg "None")] := by
    rw [process_batch_eq]
    simp [process_single, hclean, handle_result, pyStr]
  exact ⟨hmsgs, by rw [hmsgs]; rfl⟩

/-- The network calls of a batch are exactly the cleaned forms of the
identifiers that pass validation, in batch order. -/
theorem calls_eq (fetch : String → Option String) :
    ∀ batch : List String,
      (batch.map (fun r => (process_single fetch r).calls)).flatten =
        (batch.map clean_registration_number).filter (fun c => c != "") := by
  intro batch
  induction batch with
  | nil => rfl
  | cons r rs ih =>
    rw [List.map_cons, List.flatten_cons, ih, List.map_cons, List.filter_cons]
    by_cases h : clean_registration_number r = ""
    · have hs : (process_single fetch r).calls = [] := by simp [process_single, h]
      simp [hs, h]
    · have hs : (process_single fetch r).calls = [clean_registration_number r] := by
        simp [process_single, h]
      simp [hs, h]

/-- Claim C6 (amended): in discord_bot.py, an identifier failing the
fixed-shape validation produces no network call and no semaphore
acquisition (its `process_single` makes zero fetch calls) and exactly the
one invalid-format notification naming it, while a valid identifier
produces no validation message and exactly one lookup call for its cleaned
form; at batch level the calls performed are exactly the cleaned valid
identifiers.  (In main.py, shape-invalid identifiers are silently filtered
out before dispatch with no per-identifier notification — see the
counterexample.) -/
theorem c6_validation (fetch : String → Option String) (fsend : String → String → Bool)
    (reg_no : String) (batch : List String) :
    (clean_registration_number reg_no = "" →
      process_single fetch reg_no =
        ⟨[.text (invalid_format_msg reg_no)], [], (none, none)⟩) ∧
    (clean_registration_number reg_no ≠ "" →
      process_single fetch reg_no =
        ⟨[], [clean_registration_number reg_no],
          (some reg_no, fetch (clean_registration_number reg_no))⟩) ∧
    (process_batch fetch fsend batch).calls =
      (batch.map clean_registration_number).filter (fun c => c != "") ∧
    (process_batch fetch fsend batch).msgs =
      (batch.map (fun r => (process_single fetch r).msgs)).flatten ++
        (batch.map (fun r => (handle_result fsend (process_single fetch r).pair).1)).flatten := by
  refine ⟨fun h => by simp [process_single, h], fun h => by simp [process_single, h],
    ?_, ?_⟩
  · rw [process_batch_eq]
    exact calls_eq fetch batch
  · rw [process_batch_eq]

/-- Claim C6 (witness): Scenario A — the batch `["12345678901", "abc"]`
produces exactly one invalid-format notification (naming "abc") and
exactly one network call (for "12345678901"). -/
theorem c6_validation_witness :
    process_single fetch_none "abc" =
      ⟨[.text (invalid_format_msg "abc")], [], (none, none)⟩ ∧
    (process_batch fetch_none fsend_never ["12345678901", "abc"]).calls =
      ["12345678901"] := by
  have h := c6_validation fetch_none fsend_never "abc" ["12345678901", "abc"]
  exact ⟨h.1 (by decide), by rw [h.2.2.1]; decide⟩

/-- Membership in the `dict.fromkeys` fold: exactly the elements of the
accumulator and of the remaining input. -/
theorem dedup_foldl_mem (y : String) :
    ∀ (xs acc : List String), y ∈ xs.foldl dedup_step acc ↔ y ∈ acc ∨ y ∈ xs := by
  intro xs
  induction xs with
  | nil => intro acc; simp
  | cons x xs ih =>
    intro acc
    rw [List.foldl_cons, ih]
    unfold dedup_step
    by_cases h : x ∈ acc
    · simp only [if_pos h, List.mem_cons]
      constructor
      · rintro (hy | hy)
        · exact Or.inl hy
        · exact Or.inr (Or.inr hy)
      · rintro (hy | hy | hy)
        · exact Or.inl hy
        · exact Or.inl (hy ▸ h)
        · exact Or.inr hy
    · simp only [if_neg h, List.mem_append, List.mem_singleton, List.mem_cons]
      tauto

/-- The `dict.fromkeys` fold preserves freedom from duplicates. -/
theorem dedup_foldl_nodup :
    ∀ (xs acc : List String), acc.Nodup → (xs.foldl dedup_step acc).Nodup := by
  intro xs
  induction xs with
  | nil => intro acc h; simpa using h
  | cons x xs ih =>
    intro acc h
    rw [List.foldl_cons]
    apply ih
    unfold dedup_step
    by_cases hx : x ∈ acc
    · simpa [hx] using h
    · rw [if_neg hx]
      refine List.Nodup.append h (List.nodup_singleton x) ?_
      intro a ha hax
      rw [List.mem_singleton] at hax
      exact hx (hax ▸ ha)

/-- Flattening the batch slices reassembles the sliced list whenever the
slice width is positive and the fuel covers the list. -/
theorem slice_go_flatten (n : Nat) (hn : 0 < n) :
    ∀ (fuel : Nat) (l : List String), l.length ≤ fuel →
      (slice_go n fuel l).flatten = l := by
  intro fuel
  induction fuel with
  | zero =>
    intro l hl
    have : l = [] := List.length_eq_zero.mp (Nat.le_zero.mp hl)
    subst this
    rfl
  | succ m ih =>
    intro l hl
    match l with
    | [] => rfl
    | x :: xs =>
      rw [slice_go, List.flatten_cons, ih (xs.drop (n - 1)) ?hfuel]
      case hfuel =>
        have := List.length_drop (n - 1) xs
        have hxs : xs.length ≤ m := by
          simpa using Nat.succ_le_succ_iff.mp (by simpa using hl)
        omega
      · obtain ⟨k, rfl⟩ : ∃ k, n = k + 1 :=
          ⟨n - 1, (Nat.succ_pred_eq_of_pos hn).symm⟩
        rw [List.take_succ_cons, Nat.add_sub_cancel, List.cons_append,
          List.take_append_drop]

/-- Claim C7 (amended): in discord_bot.py, the identifier list built by
`process_registration_file` is deduplicated preserving first-seen order —
it has no duplicate entries, its members are exactly the stripped
non-blank lines of the file, and appending a later occurrence of an
already-seen identifier to the input leaves the output unchanged — and
the batching consumes exactly that list (the batch slices of width
`BATCH_SIZE` concatenate back to it; nothing mutates it).  (main.py does
not deduplicate — see the counterexample.) -/
theorem c7_dedup (lines xs : List String) (x : String) :
    (read_reg_nos lines).Nodup ∧
    (∀ y, y ∈ read_reg_nos lines ↔
      y ∈ (lines.filter (fun l => py_strip l ≠ "")).map py_strip) ∧
    dedup_first_seen (xs ++ [x]) =
      (if x ∈ dedup_first_seen xs then dedup_first_seen xs
       else dedup_first_seen xs ++ [x]) ∧
    (slice_batches BATCH_SIZE (read_reg_nos lines)).flatten = read_reg_nos lines := by
  refine ⟨dedup_foldl_nodup _ _ List.nodup_nil,
    fun y => by
      simpa [read_reg_nos, dedup_first_seen] using
        dedup_foldl_mem y ((lines.filter (fun l => py_strip l ≠ "")).map py_strip) [],
    ?_, slice_go_flatten BATCH_SIZE (by norm_num [BATCH_SIZE]) _ _ le_rfl⟩
  show (xs ++ [x]).foldl dedup_step [] = _
  rw [List.foldl_append]
  rfl

/-- The throttle condition as a Boolean equals the inline disjunction the
source writes (identically) in the overload branch and in the exception
branch. -/
theorem should_emit_iff (st : MonState) (t : Int) :
    should_emit st t = true ↔
      (ERROR_NOTIFICATION_INTERVAL ≤ t - st.last_error_notification ∨
        st.is_first_check = true) := by
  simp [should_emit, Bool.or_eq_true, decide_eq_true_eq]

/-- A non-live probe never terminates the loop: the run continues on the
rest of the trace from some updated state, with this probe counted, the
dispatch count unchanged, and at most this probe's own messages
prepended. -/
theorem monitor_from_not_live (d : List Msg) (st : MonState) (t : Int)
    (r : HttpResp) (rest : List (Int × HttpResp)) (h : probe_live r = false) :
    ∃ st' ms,
      (monitor_from d st ((t, r) :: rest)).probes =
        (monitor_from d st' rest).probes + 1 ∧
      (monitor_from d st ((t, r) :: rest)).dispatches =
        (monitor_from d st' rest).dispatches ∧
      (monitor_from d st ((t, r) :: rest)).msgs = ms ++ (monitor_from d st' rest).msgs := by
  cases r with
  | exc ename =>
    by_cases hc : ERROR_NOTIFICATION_INTERVAL ≤ t - st.last_error_notification ∨
        st.is_first_check = true
    · exact ⟨⟨t, false⟩, [.text (website_error_msg ename)], by simp [monitor_from, hc]⟩
    · exact ⟨st, [], by simp [monitor_from, hc]⟩
  | ok status html =>
    have hnl : ¬(status = 200 ∧ is_result_html html = true) := by
      intro ⟨h1, h2⟩
      simp [probe_live, h1, h2] at h
    by_cases hd : is_website_down_html html = true
    · by_cases hc : ERROR_NOTIFICATION_INTERVAL ≤ t - st.last_error_notification ∨
          st.is_first_check = true
      · exact ⟨⟨t, false⟩, [.text website_down_msg], by simp [monitor_from, hnl, hd, hc]⟩
      · exact ⟨st, [], by simp [monitor_from, hnl, hd, hc]⟩
    · exact ⟨st, [], by simp [monitor_from, hnl, hd]⟩

/-- Claim C3 (counterexample).  The claim states the watcher classifies by
body checks alone, a body containing a result-content marker yielding
`Live`.  A probe whose body contains "Student Name:" but whose HTTP
status is 500 is not treated as live by the code: the loop emits nothing,
dispatches nothing, and keeps polling — the live branch additionally
requires `response.status == 200`. -/
theorem c3_counterexample :
    is_result_html "Student Name: J" = true ∧
    monitor_from [] start_state [((0 : Int), HttpResp.ok 500 "Student Name: J")] =
      ⟨[], 1, 0, start_state⟩ := by
  refine ⟨by decide, by decide⟩

/-- Claim C3 (amended): the discord_bot.py watcher classifies a probe by
ordered, mutually exclusive checks in which `Live` requires the HTTP
status 200 together with a result-content marker in the body; otherwise a
body with an overload marker is `Degraded`; otherwise `NotYet`; a
transport failure is `Unreachable` with no body to classify.  A 200
response whose body lacks the markers is never `Live`, and a non-200
response is never `Live` whatever its body.  The classification is what
drives the loop: a probe dispatches exactly when it classifies `Live`. -/
theorem c3_classification (status : Nat) (html ename : String) (d : List Msg)
    (st : MonState) (t : Int) (r : HttpResp) :
    (is_result_html html = true → status = 200 →
      classify_probe (.ok status html) = .Live) ∧
    (status ≠ 200 → classify_probe (.ok status html) ≠ .Live) ∧
    (is_result_html html = false → classify_probe (.ok status html) ≠ .Live) ∧
    (is_result_html html = false → is_website_down_html html = true →
      classify_probe (.ok status html) = .Degraded) ∧
    (is_result_html html = false → is_website_down_html html = false →
      classify_probe (.ok status html) = .NotYet) ∧
    classify_probe (.exc ename) = .Unreachable ∧
    (monitor_from d st [(t, r)]).dispatches =
      (if classify_probe r = .Live then 1 else 0) := by
  refine ⟨fun hr hs => by simp [classify_probe, hr, hs], ?_, ?_, ?_, ?_, rfl, ?_⟩
  · intro hs
    simp only [classify_probe]
    intro hcon
    split at hcon
    · exact hs (by tauto)
    · split at hcon <;> simp_all
  · intro hr
    simp only [classify_probe]
    intro hcon
    split at hcon
    · simp_all
    · split at hcon <;> simp_all
  · intro hr hd
    simp [classify_probe, hr, hd]
  · intro hr hd
    simp [classify_probe, hr, hd]
  · cases r with
    | exc e =>
      have : classify_probe (.exc e) = .Unreachable := rfl
      rw [this]
      by_cases hc : ERROR_NOTIFICATION_INTERVAL ≤ t - st.last_error_notification ∨
          st.is_first_check = true
      · simp [monitor_from, hc]
      · simp [monitor_from, hc]
    | ok s h =>
      by_cases hl : s = 200 ∧ is_result_html h = true
      · simp [monitor_from, classify_probe, hl]
      · have : classify_probe (.ok s h) ≠ .Live := by
          simp only [classify_probe]
          intro hcon
          split at hcon
          · exact hl (by assumption)
          · split at hcon <;> simp_all
        rw [if_neg this]
        by_cases hd : is_website_down_html h = true
        · by_cases hc : ERROR_NOTIFICATION_INTERVAL ≤ t - st.last_error_notification ∨
              st.is_first_check = true
          · simp [monitor_from, hl, hd, hc]
          · simp [monitor_from, hl, hd, hc]
        · simp [monitor_from, hl, hd]

/-- Claim C3 (witness): the classification at concrete probes — a 200
response with the content marker is `Live`, the same body with status 500
is not, an overload body is `Degraded`, a plain body is `NotYet`, a
transport failure is `Unreachable`. -/
theorem c3_classification_witness :
    classify_probe (.ok 200 "Student Name: J") = .Live ∧
    classify_probe (.ok 500 "Student Name: J") ≠ .Live ∧
    classify_probe (.ok 200 "HTTP Error 503") = .Degraded ∧
    classify_probe (.ok 200 "hello") = .NotYet ∧
    classify_probe (.exc "TimeoutError") = .Unreachable := by
  have h1 := c3_classification 200 "Student Name: J" "TimeoutError" [] start_state 0
    (.exc "TimeoutError")
  have h2 := c3_classification 500 "Student Name: J" "TimeoutError" [] start_state 0
    (.exc "TimeoutError")
  have h3 := c3_classification 200 "HTTP Error 503" "TimeoutError" [] start_state 0
    (.exc "TimeoutError")
  have h4 := c3_classification 200 "hello" "TimeoutError" [] start_state 0
    (.exc "TimeoutError")
  exact ⟨h1.1 (by decide) rfl, h2.2.1 (by decide), h3.2.2.2.1 (by decide) (by decide),
    h4.2.2.2.2.1 (by decide) (by decide), h1.2.2.2.2.2.1⟩

/-- Claim C4 (amended): in discord_bot.py, once a probe is classified live
(after any prefix of non-live probes), the watcher emits the one-time
"results are live" embed regardless of the throttle state, invokes the
dispatcher exactly once — whatever messages the dispatcher produces,
including failure reports (every operation inside
`process_registration_file` handles its own exceptions and the call
returns normally) — and never issues another probe: the probes consumed
are exactly the prefix plus the live one, whatever responses follow.
(main.py's watcher instead resumes polling and can dispatch again — see
the counterexample.) -/
theorem c4_live_handoff (d : List Msg) (st : MonState)
    (pre : List (Int × HttpResp)) (t : Int) (r : HttpResp)
    (rest : List (Int × HttpResp))
    (hpre : ∀ p ∈ pre, probe_live p.2 = false) (hr : probe_live r = true) :
    (monitor_from d st (pre ++ (t, r) :: rest)).probes = pre.length + 1 ∧
    (monitor_from d st (pre ++ (t, r) :: rest)).dispatches = 1 ∧
    results_live_embed ∈ (monitor_from d st (pre ++ (t, r) :: rest)).msgs := by
  induction pre generalizing st with
  | nil =>
    cases r with
    | exc e => simp [probe_live] at hr
    | ok status html =>
      have hl : status = 200 ∧ is_result_html html = true := by
        simpa [probe_live, Bool.and_eq_true, beq_iff_eq] using hr
      simp [monitor_from, hl]
  | cons p ps ih =>
    obtain ⟨tp, rp⟩ := p
    have hplive : probe_live rp = false := hpre (tp, rp) (List.mem_cons_self _ _)
    have hps : ∀ q ∈ ps, probe_live q.2 = false :=
      fun q hq => hpre q (List.mem_cons_of_mem _ hq)
    obtain ⟨st', ms, h1, h2, h3⟩ :=
      monitor_from_not_live d st tp rp (ps ++ (t, r) :: rest) hplive
    obtain ⟨ihp, ihd, ihm⟩ := ih st' hps
    rw [List.cons_append]
    refine ⟨?_, ?_, ?_⟩
    · rw [h1, ihp, List.length_cons]
    · rw [h2, ihd]
    · rw [h3]
      exact List.mem_append_right ms ihm

/-- Claim C4 (witness): a non-live probe, then a live probe, then a
further response that is never consumed — the run issues exactly two
probes, dispatches exactly once, and the live embed is among the emitted
messages. -/
theorem c4_live_handoff_witness :
    (monitor_from [] start_state
      [((0 : Int), HttpResp.ok 200 "x"), (5, .ok 200 "Student Name: A"),
        (6, .exc "TimeoutError")]).probes = 2 ∧
    (monitor_from [] start_state
      [((0 : Int), HttpResp.ok 200 "x"), (5, .ok 200 "Student Name: A"),
        (6, .exc "TimeoutError")]).dispatches = 1 ∧
    results_live_embed ∈ (monitor_from [] start_state
      [((0 : Int), HttpResp.ok 200 "x"), (5, .ok 200 "Student Name: A"),
        (6, .exc "TimeoutError")]).msgs := by
  have h := c4_live_handoff [] start_state [((0 : Int), HttpResp.ok 200 "x")]
    5 (.ok 200 "Student Name: A") [((6 : Int), HttpResp.exc "TimeoutError")]
    (by decide) (by decide)
  simpa using h

/-- Claim C5 (counterexample).  The claim states each category's throttle
window and first-observation flag are independent, the first-ever
observation of a category always notifying.  In the code both the
`Degraded` and the `Unreachable` branch share the single
`(last_error_notification, is_first_check)` pair: after a `Degraded`
emission at time 0, the first-ever `Unreachable` observation at time 10 is
suppressed — the run of the two probes emits only the overload message. -/
theorem c5_counterexample :
    monitor_from [] start_state
      [((0 : Int), HttpResp.ok 503 "Service Unavailable"),
        (10, .exc "TimeoutError")] =
      ⟨[.text website_down_msg], 2, 0, ⟨0, false⟩⟩ := by
  decide

/-- Claim C5 (amended): discord_bot.py keeps one shared throttle clock —
the pair `(last_error_notification, is_first_check)` — for the `Degraded`
and `Unreachable` notification categories.  Both branches emit under
exactly the same condition `should_emit` (window elapsed on the shared
timestamp, or shared first-observation flag) and both update the same
shared state on emission; the first check always emits; and any second
error observation — of either category — less than the window after an
emission is suppressed, so an emission in one category does advance (and
suppress) the other's. -/
theorem c5_shared_throttle (d : List Msg) (st : MonState) (t tp : Int)
    (ename ename2 html : String)
    (hdown : is_website_down_html html = true)
    (hnl : is_result_html html = false) :
    ((monitor_from d st [(t, .ok 503 html)]).msgs =
      (if should_emit st t then [.text website_down_msg] else [])) ∧
    ((monitor_from d st [(t, .ok 503 html)]).final =
      (if should_emit st t then ⟨t, false⟩ else st)) ∧
    ((monitor_from d st [(t, .exc ename)]).msgs =
      (if should_emit st t then [.text (website_error_msg ename)] else [])) ∧
    ((monitor_from d st [(t, .exc ename)]).final =
      (if should_emit st t then ⟨t, false⟩ else st)) ∧
    (st.is_first_check = true → should_emit st t = true) ∧
    (tp - t < ERROR_NOTIFICATION_INTERVAL → should_emit ⟨t, false⟩ tp = false) ∧
    (tp - t < ERROR_NOTIFICATION_INTERVAL →
      (monitor_from d ⟨t, false⟩ [(tp, .exc ename2)]).msgs = []) := by
  have hwin : ∀ (st' : MonState) (t' : Int),
      (ERROR_NOTIFICATION_INTERVAL ≤ t' - st'.last_error_notification ∨
        st'.is_first_check = true) ↔ should_emit st' t' = true :=
    fun st' t' => (should_emit_iff st' t').symm
  refine ⟨?_, ?_, ?_, ?_, ?_, ?_, ?_⟩
  · by_cases hc : should_emit st t = true
    · simp [monitor_from, hdown, hnl, (hwin st t).mpr hc, hc]
    · rw [if_neg hc]
      simp [monitor_from, hdown, hnl, (hwin st t).not.mpr hc]
  · by_cases hc : should_emit st t = true
    · simp [monitor_from, hdown, hnl, (hwin st t).mpr hc, hc]
    · rw [if_neg hc]
      simp [monitor_from, hdown, hnl, (hwin st t).not.mpr hc]
  · by_cases hc : should_emit st t = true
    · simp [monitor_from, (hwin st t).mpr hc, hc]
    · rw [if_neg hc]
      simp [monitor_from, (hwin st t).not.mpr hc]
  · by_cases hc : should_emit st t = true
    · simp [monitor_from, (hwin st t).mpr hc, hc]
    · rw [if_neg hc]
      simp [monitor_from, (hwin st t).not.mpr hc]
  · intro h
    simp [should_emit, h]
  · intro h
    have h' : ¬((3600 : Int) ≤ tp - t) := by
      simp only [ERROR_NOTIFICATION_INTERVAL] at h
      omega
    simp [should_emit, ERROR_NOTIFICATION_INTERVAL, h']
  · intro h
    have h' : ¬((3600 : Int) ≤ tp - t) := by
      simp only [ERROR_NOTIFICATION_INTERVAL] at h
      omega
    simp [monitor_from, ERROR_NOTIFICATION_INTERVAL, h']

/-- Claim C5 (witness): the shared-throttle statement at the concrete
trace of the counterexample — the first check emits the overload message,
and ten seconds after an emission the exception branch emits nothing. -/
theorem c5_shared_throttle_witness :
    (monitor_from [] start_state [((0 : Int), HttpResp.ok 503 "Service Unavailable")]).msgs =
      [.text website_down_msg] ∧
    (monitor_from [] ⟨0, false⟩ [((10 : Int), HttpResp.exc "TimeoutError")]).msgs = [] := by
  have h := c5_shared_throttle [] start_state 0 10 "TimeoutError" "TimeoutError"
    "Service Unavailable" (by decide) (by decide)
  constructor
  · rw [h.1]
    decide
  · exact h.2.2.2.2.2.2 (by decide)

end DBot

namespace MainPy

/-- Claim C4 (counterexample).  The claim states that once a probe is
classified live the watcher invokes the dispatcher exactly once and never
issues another probe.  main.py's watcher (one of the claim's two cited
`monitor_website` functions) has no `break`: after a 200-status probe at
time 0 triggers processing, the probe at time 8000 is still issued and —
the 7200-second notification window having elapsed — triggers the
dispatcher a second time.  Two probes, two dispatches. -/
theorem c4_counterexample :
    (monitor_from [] 0 init_state
      [((0 : Int), HttpResp.ok 200 ""), (8000, .ok 200 "")]).dispatches = 2 ∧
    (monitor_from [] 0 init_state
      [((0 : Int), HttpResp.ok 200 ""), (8000, .ok 200 "")]).probes = 2 := by
  refine ⟨by decide, by decide⟩

/-- Claim C6 (counterexample).  The claim states every shape-invalid
identifier yields exactly one Invalid-category notification naming it.
main.py's `process_registration_file` (one of the claim's two cited
sources) silently filters invalid identifiers out before dispatch: on a
file whose only line is "abc" it emits a single run-level message that
does not name "abc" — zero per-identifier invalid notifications. -/
theorem c6_counterexample :
    process_registration_file fetch_down send_never ["abc"] =
      ([], ["❌ No valid registration numbers found"]) ∧
    str_has "❌ No valid registration numbers found" "abc" = false := by
  refine ⟨by decide, by decide⟩

/-- Claim C7 (counterexample).  The claim states the identifier list is
deduplicated before processing, containing exactly one occurrence of each
distinct identifier.  main.py's reader (one of the claim's two cited
sources) performs no deduplication: a file with the same valid identifier
on two lines yields a processing list containing it twice. -/
theorem c7_counterexample :
    read_reg_nos ["12345678901", "12345678901"] =
      ["12345678901", "12345678901"] ∧
    (read_reg_nos ["12345678901", "12345678901"]).count "12345678901" = 2 := by
  refine ⟨by decide, by decide⟩

/-- Claim C8 (counterexample).  The claim states the per-attempt
classification checks the overload/down markers first and treats them as
transient (back off and retry).  main.py's `fetch_result_html` (one of the
claim's two cited sources) checks no overload marker at all: a 200-status
body reading "Service Unavailable" — which the down-marker check of the
sibling variant recognises — is returned as a found result document, with
no retry and no back-off. -/
theorem c8_counterexample :
    DBot.is_website_down_html "Service Unavailable" = true ∧
    fetch_result_html (.ok 200 "Service Unavailable") =
      some "Service Unavailable" := by
  refine ⟨by decide, by decide⟩

end MainPy
